import Mathlib

/-!
Shallow embedding of `src/sentry_github/plugin.py` (class `GitHubPlugin`),
the GitHub issue-tracker adapter: configuration check, API URL construction,
authenticated request assembly, and the five forge operations
(`get_allowed_assignees`, `create_issue`, `link_issue`,
`get_issue_title_by_id`, `view_autocomplete`).

Each operation performs at most one outbound HTTP call, so an operation is
modelled as a pure function of an environment `Env` holding the project
`repo` option, the per-user auth token, and the outcome the network would
give to the one call.  The result records the returned value or escaping
exception, the outbound requests actually attempted (in order), and the
user-visible messages reported through `handle_api_error`.
-/

set_option autoImplicit false

/-- Decoded JSON value, as produced by `json.loads` on a response body. -/
inductive Json where
  | null
  | bool (b : Bool)
  | str (s : String)
  | num (n : Int)
  | arr (elems : List Json)
  | obj (fields : List (String × Json))

/-- Python-level failures an operation can surface: `forms.ValidationError`
raised by the plugin itself, and the raw `KeyError` / `TypeError` /
`requests.RequestException` / `ValueError` exceptions that escape uncaught. -/
inductive PyErr where
  | validationError (msg : Json)
  | keyError (key : String)
  | typeError
  | requestException (msg : String)
  | valueError (msg : String)

/-- Python `str()` / `%s` rendering of a decoded JSON value.  Container
values are rendered opaquely: every `%s` use in the plugin formats scalar
fields. -/
def Json.pyStr : Json → String
  | .null => "None"
  | .bool true => "True"
  | .bool false => "False"
  | .str s => s
  | .num n => toString n
  | .arr _ => "<list>"
  | .obj _ => "<dict>"

/-- Python `json_resp[key]`: `KeyError` when the key is missing, `TypeError`
(collapsing the non-subscriptable type errors) when the value is not a
dict. -/
def Json.getItem : Json → String → Except PyErr Json
  | .obj fields, key =>
    match fields.lookup key with
    | some v => .ok v
    | none => .error (.keyError key)
  | _, _ => .error .typeError

/-- Python `json_resp.get(key, default)`: the default when the key is
missing, `TypeError` (`AttributeError` in Python, collapsed here) when the
value is not a dict. -/
def Json.getDefault : Json → String → Json → Except PyErr Json
  | .obj fields, key, dflt => .ok ((fields.lookup key).getD dflt)
  | _, _, _ => .error .typeError

/-- Python iteration over a decoded JSON value: lists yield their elements,
dicts yield their keys, anything else raises `TypeError`. -/
def Json.pyElems : Json → Except PyErr (List Json)
  | .arr elems => .ok elems
  | .obj fields => .ok (fields.map fun f => Json.str f.1)
  | _ => .error .typeError

/-- Outcome the network would give to the one outbound HTTP call of an
operation: a `requests.RequestException` at transport level (raised by
`safe_urlopen` or `safe_urlread`), or a response with an HTTP status code
and the result of `json.loads` on its raw body (`Except.error` carries the
`ValueError` message). -/
inductive NetOutcome where
  | reqError (msg : String)
  | response (status : Nat) (body : Except String Json)

/-- Outbound request as assembled by `make_api_request`: URL, optional JSON
body, and the `Authorization` header value.  The `method` field is
modelled from the spec: the underlying `safe_urlopen` (host framework,
outside this repository) issues a GET when no body is given and a POST when
a JSON body is given. -/
structure ApiRequest where
  method : String
  url : String
  jsonData : Option Json
  authorization : String

/-- Inputs an operation reads from its surroundings: the project option
`repo` (via `get_option`), the per-user GitHub access token (via
`get_auth_for_user`, `none` when the user never linked GitHub), and the
network outcome of the one call the operation may perform. -/
structure Env where
  repo : Option String
  auth : Option String
  net : NetOutcome

/-- Result of one adapter operation: the returned value or escaping
exception, the outbound network calls attempted (in order), and the
user-visible messages reported through `handle_api_error`. -/
structure OpResult (α : Type) where
  result : Except PyErr α
  requests : List ApiRequest
  errorReports : List String

/-- Python truthiness of an optional string option value: `None` and the
empty string are falsy. -/
def optionTruthy : Option String → Bool
  | none => false
  | some s => !s.isEmpty

/-- Python `%s` formatting of an optional string: `None` renders as
`None`. -/
def formatOption : Option String → String
  | none => "None"
  | some s => s

/-- Uppercase hexadecimal digit for `n < 16`. -/
def hexDigit (n : Nat) : Char :=
  if n < 10 then Char.ofNat (48 + n) else Char.ofNat (55 + n)

/-- Percent-encoding of one byte, uppercase hex. -/
def percentByte (n : Nat) : String :=
  String.mk ['%', hexDigit (n / 16 % 16), hexDigit (n % 16)]

/-- Python 2 `urllib.quote_plus` on one character: ASCII letters, digits
and `_.-` are kept, a space becomes `+`, everything else is
percent-encoded. -/
def quotePlusChar (c : Char) : String :=
  if c.isAlphanum || c == '_' || c == '.' || c == '-' then String.mk [c]
  else if c == ' ' then "+"
  else percentByte (c.toNat % 256)

/-- Python 2 `urllib.quote_plus` on a string. -/
def quotePlus (s : String) : String :=
  String.join (s.toList.map quotePlusChar)

/-- Python `urllib.urlencode` over an association list of query
parameters. -/
def urlencode (params : List (String × String)) : String :=
  String.intercalate "&" (params.map fun p =>
    quotePlus p.1 ++ "=" ++ quotePlus p.2)

namespace GitHubPlugin

/-- `GitHubPlugin.is_configured`: true iff the `repo` option is set and
non-empty. -/
def is_configured (repo : Option String) : Bool :=
  optionTruthy repo

/-- `GitHubPlugin.build_api_url`: interpolates the `repo` option and the
endpoint into the API base URL, appending an encoded query string when
query parameters are given (no in-repo caller passes any). -/
def build_api_url (repo : Option String) (github_api : String)
    (query_params : List (String × String)) : String :=
  let url := "https://api.github.com/repos/" ++ formatOption repo ++ "/" ++ github_api
  if query_params.isEmpty then url else url ++ "?" ++ urlencode query_params

/-- Message of the `ValidationError` raised when the user has no GitHub
credential. -/
def authRequiredMsg : String :=
  "You have not yet associated GitHub with your account."

/-- `GitHubPlugin.make_api_request`: fail with `ValidationError` when the
user has no GitHub credential, otherwise assemble the authenticated request
that `safe_urlopen` performs. -/
def make_api_request (auth : Option String) (url : String)
    (json_data : Option Json) : Except PyErr ApiRequest :=
  match auth with
  | none => .error (.validationError (.str authRequiredMsg))
  | some token =>
    .ok { method := if json_data.isSome then "POST" else "GET"
          url := url
          jsonData := json_data
          authorization := "token " ++ token }

/-- `GitHubPlugin.handle_api_error`: the user-visible message added via
django messages. -/
def handle_api_error (error : String) : String :=
  "Error communicating with GitHub: " ++ error

/-- `GitHubPlugin.get_allowed_assignees`: GET `/repos/{repo}/assignees`; on
`RequestException`, `ValueError` or an HTTP status above 399, report the
error and return an empty tuple; on success return the `(login, login)`
pairs preceded by the synthetic `(empty, Unassigned)` entry. -/
def get_allowed_assignees (env : Env) : OpResult (List (Json × Json)) :=
  let url := build_api_url env.repo "assignees" []
  match make_api_request env.auth url none with
  | .error e => ⟨.error e, [], []⟩
  | .ok req =>
    match env.net with
    | .reqError msg => ⟨.ok [], [req], [handle_api_error msg]⟩
    | .response status body =>
      match body with
      | .error msg => ⟨.ok [], [req], [handle_api_error msg]⟩
      | .ok json_resp =>
        if 399 < status then
          match json_resp.getDefault "message" (.str "") with
          | .error e => ⟨.error e, [req], []⟩
          | .ok m => ⟨.ok [], [req], [handle_api_error m.pyStr]⟩
        else
          match json_resp.pyElems.bind (fun users =>
              users.mapM fun u => u.getItem "login") with
          | .error e => ⟨.error e, [req], []⟩
          | .ok logins =>
            ⟨.ok ((.str "", .str "Unassigned") :: logins.map fun l => (l, l)),
             [req], []⟩

/-- `GitHubPlugin.create_issue`: POST `/repos/{repo}/issues` with the
title, description and optional assignee; `RequestException` and
`ValueError` become `ValidationError`; a status above 399 raises
`ValidationError` with `json_resp["message"]` (a `KeyError` escapes when
the field is absent); success returns `json_resp["number"]`. -/
def create_issue (env : Env) (title description : String)
    (assignee : Option String) : OpResult Json :=
  let json_data : Json := .obj
    [("title", .str title), ("body", .str description),
     ("assignee", match assignee with | none => .null | some a => .str a)]
  let url := build_api_url env.repo "issues" []
  match make_api_request env.auth url (some json_data) with
  | .error e => ⟨.error e, [], []⟩
  | .ok req =>
    match env.net with
    | .reqError msg =>
      ⟨.error (.validationError (.str ("Error communicating with GitHub: " ++ msg))),
       [req], []⟩
    | .response status body =>
      match body with
      | .error msg =>
        ⟨.error (.validationError (.str ("Error communicating with GitHub: " ++ msg))),
         [req], []⟩
      | .ok json_resp =>
        if 399 < status then
          match json_resp.getItem "message" with
          | .error e => ⟨.error e, [req], []⟩
          | .ok m => ⟨.error (.validationError m), [req], []⟩
        else
          match json_resp.getItem "number" with
          | .error e => ⟨.error e, [req], []⟩
          | .ok n => ⟨.ok n, [req], []⟩

/-- `GitHubPlugin.link_issue`: no-op when the comment is empty or absent;
otherwise POST `/repos/{repo}/issues/{issue_id}/comments` with the comment
as body, with the same error policy as `create_issue` and no success
value. -/
def link_issue (env : Env) (issue_id : String) (comment : Option String) :
    OpResult Unit :=
  if !optionTruthy comment then ⟨.ok (), [], []⟩
  else
    let url := build_api_url env.repo "issues" [] ++ "/" ++ issue_id ++ "/comments"
    let json_data : Json := .obj [("body", .str (comment.getD ""))]
    match make_api_request env.auth url (some json_data) with
    | .error e => ⟨.error e, [], []⟩
    | .ok req =>
      match env.net with
      | .reqError msg =>
        ⟨.error (.validationError (.str ("Error communicating with GitHub: " ++ msg))),
         [req], []⟩
      | .response status body =>
        match body with
        | .error msg =>
          ⟨.error (.validationError (.str ("Error communicating with GitHub: " ++ msg))),
           [req], []⟩
        | .ok json_resp =>
          if 399 < status then
            match json_resp.getItem "message" with
            | .error e => ⟨.error e, [req], []⟩
            | .ok m => ⟨.error (.validationError m), [req], []⟩
          else ⟨.ok (), [req], []⟩

/-- `GitHubPlugin.get_issue_label`. -/
def get_issue_label (issue_id : String) : String :=
  "GH-" ++ issue_id

/-- `GitHubPlugin.get_issue_url`. -/
def get_issue_url (repo : Option String) (issue_id : String) : String :=
  "https://github.com/" ++ formatOption repo ++ "/issues/" ++ issue_id

/-- `GitHubPlugin.get_issue_title_by_id`: GET
`/repos/{repo}/issues/{issue_id}` with no error handling: transport and
parse errors escape as raw exceptions and the HTTP status is never
inspected. -/
def get_issue_title_by_id (env : Env) (issue_id : String) : OpResult Json :=
  let url := build_api_url env.repo "issues" [] ++ "/" ++ issue_id
  match make_api_request env.auth url none with
  | .error e => ⟨.error e, [], []⟩
  | .ok req =>
    match env.net with
    | .reqError msg => ⟨.error (.requestException msg), [req], []⟩
    | .response _ body =>
      match body with
      | .error msg => ⟨.error (.valueError msg), [req], []⟩
      | .ok json_resp =>
        match json_resp.getItem "title" with
        | .error e => ⟨.error e, [req], []⟩
        | .ok t => ⟨.ok t, [req], []⟩

/-- Responses `view_autocomplete` can produce: a DRF `Response` with a data
dictionary, or the `JSONResponse({}, 502)` error form. -/
inductive AutoResponse where
  | response (data : List (String × Json))
  | jsonResponse (data : Json) (statusCode : Nat)

/-- Python list comprehension of `view_autocomplete`, building one
text/id entry per item in order; the first failing lookup escapes as its
exception. -/
def autocompleteEntries : List Json → Except PyErr (List Json)
  | [] => .ok []
  | i :: rest => do
    let n ← i.getItem "number"
    let t ← i.getItem "title"
    let tail ← autocompleteEntries rest
    pure (Json.obj
      [("text", .str ("(#" ++ n.pyStr ++ ") " ++ t.pyStr)), ("id", n)] :: tail)

/-- `GitHubPlugin.view_autocomplete`: short-circuit to an empty issue list
unless the autocomplete field is `issue_id` and the query is non-empty;
search GitHub with `q=repo:{repo} {query}`; report transport and parse
errors and answer `JSONResponse({}, 502)`; otherwise map the `items` of the
body to `(#number) title` entries — the HTTP status code is never
inspected. -/
def view_autocomplete (env : Env) (field query : Option String) :
    OpResult AutoResponse :=
  if field != some "issue_id" || !optionTruthy query then
    ⟨.ok (.response [("issues", .arr [])]), [], []⟩
  else
    let q := "repo:" ++ formatOption env.repo ++ " " ++ query.getD ""
    let url := "https://api.github.com/search/issues?" ++ urlencode [("q", q)]
    match make_api_request env.auth url none with
    | .error e => ⟨.error e, [], []⟩
    | .ok req =>
      match env.net with
      | .reqError msg =>
        ⟨.ok (.jsonResponse (.obj []) 502), [req], [handle_api_error msg]⟩
      | .response _ body =>
        match body with
        | .error msg =>
          ⟨.ok (.jsonResponse (.obj []) 502), [req], [handle_api_error msg]⟩
        | .ok json_resp =>
          match json_resp.getDefault "items" (.arr []) with
          | .error e => ⟨.error e, [req], []⟩
          | .ok items =>
            match items.pyElems with
            | .error e => ⟨.error e, [req], []⟩
            | .ok itemList =>
              match autocompleteEntries itemList with
              | .error e => ⟨.error e, [req], []⟩
              | .ok issues =>
                ⟨.ok (.response [("issue_id", .arr issues)]), [req], []⟩

end GitHubPlugin

/-- C1 (amended): for a project whose repo option is empty or null,
is_configured returns false; build_api_url, however, does not fail with a
configuration error — it returns a URL with the missing repo value
interpolated into the path. -/
theorem C1_unconfigured_behavior (repo : Option String)
    (h : repo = none ∨ repo = some "") :
    GitHubPlugin.is_configured repo = false ∧
      (GitHubPlugin.build_api_url repo "issues" []
          = "https://api.github.com/repos/None/issues" ∨
        GitHubPlugin.build_api_url repo "issues" []
          = "https://api.github.com/repos//issues") := by
  rcases h with h | h <;> subst h
  · exact ⟨rfl, Or.inl rfl⟩
  · exact ⟨rfl, Or.inr rfl⟩

/-- C1 counterexample: with a null repo option the plugin still returns a
URL from build_api_url (interpolating None into the path); no configuration
error is raised, contrary to the claim. -/
theorem C1_counterexample :
    GitHubPlugin.is_configured none = false ∧
      GitHubPlugin.build_api_url none "issues" []
        = "https://api.github.com/repos/None/issues" :=
  ⟨rfl, rfl⟩

/-- C1 witness: the amended statement at the concrete null configuration. -/
theorem C1_witness :
    GitHubPlugin.is_configured none = false ∧
      (GitHubPlugin.build_api_url none "issues" []
          = "https://api.github.com/repos/None/issues" ∨
        GitHubPlugin.build_api_url none "issues" []
          = "https://api.github.com/repos//issues") :=
  C1_unconfigured_behavior none (Or.inl rfl)

/-- C8: link_issue with an empty or absent comment performs zero network
calls and returns successfully. -/
theorem C8_link_issue_noop (env : Env) (issue_id : String)
    (comment : Option String) (h : comment = none ∨ comment = some "") :
    GitHubPlugin.link_issue env issue_id comment = ⟨.ok (), [], []⟩ := by
  rcases h with h | h <;> subst h <;> rfl

/-- C8 witness: linking with an absent comment in a concrete environment
makes no request even though the network would fail. -/
theorem C8_witness :
    GitHubPlugin.link_issue ⟨some "acme/widgets", some "tok", .reqError "down"⟩
        "7" none = ⟨.ok (), [], []⟩ :=
  C8_link_issue_noop _ _ _ (Or.inl rfl)

/-- C9: view_autocomplete with an empty or absent query performs zero
network calls and returns the empty issue list. -/
theorem C9_empty_query (env : Env) (field query : Option String)
    (h : query = none ∨ query = some "") :
    GitHubPlugin.view_autocomplete env field query
      = ⟨.ok (.response [("issues", .arr [])]), [], []⟩ := by
  rcases h with h | h <;> subst h <;>
    simp [GitHubPlugin.view_autocomplete, optionTruthy, String.isEmpty]

/-- C9 witness: a concrete empty-query search makes no request even though
the network would fail. -/
theorem C9_witness :
    GitHubPlugin.view_autocomplete
        ⟨some "acme/widgets", some "tok", .reqError "down"⟩
        (some "issue_id") (some "")
      = ⟨.ok (.response [("issues", .arr [])]), [], []⟩ :=
  C9_empty_query _ _ _ (Or.inr rfl)

/-- C10: view_autocomplete with an autocomplete field other than issue_id
returns the empty issue list and performs zero network calls even when the
query is non-empty. -/
theorem C10_other_field (env : Env) (field query : Option String)
    (h : field ≠ some "issue_id") :
    GitHubPlugin.view_autocomplete env field query
      = ⟨.ok (.response [("issues", .arr [])]), [], []⟩ := by
  simp [GitHubPlugin.view_autocomplete, bne_iff_ne, h]

/-- C10 witness: a concrete non-issue_id field with a non-empty query makes
no request even though the network would fail. -/
theorem C10_witness :
    GitHubPlugin.view_autocomplete
        ⟨some "acme/widgets", some "tok", .reqError "down"⟩
        (some "assignee") (some "crash")
      = ⟨.ok (.response [("issues", .arr [])]), [], []⟩ :=
  C10_other_field _ _ _ (by decide)

/-- Helper: a string other than the empty string is not isEmpty. -/
theorem isEmpty_false_of_ne {s : String} (h : s ≠ "") : s.isEmpty = false := by
  rw [Bool.eq_false_iff]
  intro hh
  exact h ((String.isEmpty_iff s).mp hh)

/-- C4: with no stored credential, every operation invocation that would
reach the network — the assignee list, issue creation, linking with a
non-empty comment, title lookup, and an issue_id search with a non-empty
query — fails with the GitHub-association ValidationError and performs zero
outbound network calls. -/
theorem C4_no_credential (env : Env)
    (title description issue_id comment q : String) (assignee : Option String)
    (hauth : env.auth = none) (hcomment : comment ≠ "") (hq : q ≠ "") :
    GitHubPlugin.get_allowed_assignees env
        = ⟨.error (.validationError (.str GitHubPlugin.authRequiredMsg)), [], []⟩ ∧
      GitHubPlugin.create_issue env title description assignee
        = ⟨.error (.validationError (.str GitHubPlugin.authRequiredMsg)), [], []⟩ ∧
      GitHubPlugin.link_issue env issue_id (some comment)
        = ⟨.error (.validationError (.str GitHubPlugin.authRequiredMsg)), [], []⟩ ∧
      GitHubPlugin.get_issue_title_by_id env issue_id
        = ⟨.error (.validationError (.str GitHubPlugin.authRequiredMsg)), [], []⟩ ∧
      GitHubPlugin.view_autocomplete env (some "issue_id") (some q)
        = ⟨.error (.validationError (.str GitHubPlugin.authRequiredMsg)), [], []⟩ := by
  obtain ⟨repo, auth, net⟩ := env
  replace hauth : auth = none := hauth
  subst hauth
  refine ⟨rfl, rfl, ?_, rfl, ?_⟩
  · simp [GitHubPlugin.link_issue, optionTruthy, isEmpty_false_of_ne hcomment,
      GitHubPlugin.make_api_request]
  · simp [GitHubPlugin.view_autocomplete, optionTruthy, isEmpty_false_of_ne hq,
      GitHubPlugin.make_api_request]

/-- C4 witness: all five operations at a concrete credential-less
environment. -/
theorem C4_witness :
    GitHubPlugin.get_allowed_assignees ⟨some "acme/widgets", none, .reqError "down"⟩
        = ⟨.error (.validationError (.str GitHubPlugin.authRequiredMsg)), [], []⟩ ∧
      GitHubPlugin.create_issue ⟨some "acme/widgets", none, .reqError "down"⟩
          "Bug" "Steps" none
        = ⟨.error (.validationError (.str GitHubPlugin.authRequiredMsg)), [], []⟩ ∧
      GitHubPlugin.link_issue ⟨some "acme/widgets", none, .reqError "down"⟩
          "7" (some "see issue")
        = ⟨.error (.validationError (.str GitHubPlugin.authRequiredMsg)), [], []⟩ ∧
      GitHubPlugin.get_issue_title_by_id ⟨some "acme/widgets", none, .reqError "down"⟩ "7"
        = ⟨.error (.validationError (.str GitHubPlugin.authRequiredMsg)), [], []⟩ ∧
      GitHubPlugin.view_autocomplete ⟨some "acme/widgets", none, .reqError "down"⟩
          (some "issue_id") (some "crash")
        = ⟨.error (.validationError (.str GitHubPlugin.authRequiredMsg)), [], []⟩ :=
  C4_no_credential ⟨some "acme/widgets", none, .reqError "down"⟩
    "Bug" "Steps" "7" "see issue" "crash" none rfl (by decide) (by decide)

/-- C5: get_allowed_assignees degrades on every failure: a transport error,
a parse error, or an HTTP status above 399 (whose body is a JSON object,
the forge error shape) each yield an empty sequence, exactly one
error-report callback call, and no escaping exception. -/
theorem C5_assignees_degrade (env : Env) (tok : String)
    (hauth : env.auth = some tok) :
    (∀ msg, env.net = .reqError msg →
        GitHubPlugin.get_allowed_assignees env
          = ⟨.ok [],
             [⟨"GET", GitHubPlugin.build_api_url env.repo "assignees" [], none,
               "token " ++ tok⟩],
             [GitHubPlugin.handle_api_error msg]⟩) ∧
      (∀ status msg, env.net = .response status (.error msg) →
        GitHubPlugin.get_allowed_assignees env
          = ⟨.ok [],
             [⟨"GET", GitHubPlugin.build_api_url env.repo "assignees" [], none,
               "token " ++ tok⟩],
             [GitHubPlugin.handle_api_error msg]⟩) ∧
      (∀ status fields, 399 < status →
        env.net = .response status (.ok (.obj fields)) →
        GitHubPlugin.get_allowed_assignees env
          = ⟨.ok [],
             [⟨"GET", GitHubPlugin.build_api_url env.repo "assignees" [], none,
               "token " ++ tok⟩],
             [GitHubPlugin.handle_api_error
                ((fields.lookup "message").getD (Json.str "")).pyStr]⟩) := by
  obtain ⟨repo, auth, net⟩ := env
  replace hauth : auth = some tok := hauth
  subst hauth
  refine ⟨?_, ?_, ?_⟩
  · intro msg hnet
    replace hnet : net = .reqError msg := hnet
    subst hnet
    rfl
  · intro status msg hnet
    replace hnet : net = .response status (.error msg) := hnet
    subst hnet
    rfl
  · intro status fields hstatus hnet
    replace hnet : net = .response status (.ok (.obj fields)) := hnet
    subst hnet
    simp [GitHubPlugin.get_allowed_assignees, GitHubPlugin.make_api_request,
      Json.getDefault, hstatus]

/-- C5 witness: the three degradation cases of the assignee list at concrete
environments: a connection failure, a malformed body, and a 403 with a
message body. -/
theorem C5_witness :
    GitHubPlugin.get_allowed_assignees
        ⟨some "acme/widgets", some "tok", .reqError "connection reset"⟩
      = ⟨.ok [],
         [⟨"GET",
           GitHubPlugin.build_api_url (some "acme/widgets") "assignees" [],
           none, "token " ++ "tok"⟩],
         [GitHubPlugin.handle_api_error "connection reset"]⟩ ∧
      GitHubPlugin.get_allowed_assignees
          ⟨some "acme/widgets", some "tok",
           .response 403 (.ok (.obj [("message", .str "API rate limit exceeded")]))⟩
        = ⟨.ok [],
           [⟨"GET",
             GitHubPlugin.build_api_url (some "acme/widgets") "assignees" [],
             none, "token " ++ "tok"⟩],
           [GitHubPlugin.handle_api_error
              (([("message", Json.str "API rate limit exceeded")].lookup "message").getD
                (Json.str "")).pyStr]⟩ :=
  ⟨(C5_assignees_degrade
      ⟨some "acme/widgets", some "tok", .reqError "connection reset"⟩ "tok" rfl).1
      "connection reset" rfl,
    (C5_assignees_degrade
      ⟨some "acme/widgets", some "tok",
       .response 403 (.ok (.obj [("message", .str "API rate limit exceeded")]))⟩
      "tok" rfl).2.2 403 [("message", .str "API rate limit exceeded")]
      (by decide) rfl⟩

/-- C6: with a configured repository, create_issue POSTs the title,
description and (null) assignee to the repos issues endpoint with the
bearer-token header, and on a success status returns the number field of
the decoded body. -/
theorem C6_create_issue_success (repo tok title description : String)
    (status : Nat) (json_resp number : Json)
    (hstatus : status ≤ 399)
    (hnumber : json_resp.getItem "number" = .ok number) :
    GitHubPlugin.create_issue
        ⟨some repo, some tok, .response status (.ok json_resp)⟩
        title description none
      = ⟨.ok number,
         [⟨"POST", "https://api.github.com/repos/" ++ repo ++ "/issues",
           some (.obj [("title", .str title), ("body", .str description),
                       ("assignee", .null)]),
           "token " ++ tok⟩], []⟩ := by
  have hs : ¬ 399 < status := not_lt.mpr hstatus
  have hurl : GitHubPlugin.build_api_url (some repo) "issues" []
      = "https://api.github.com/repos/" ++ repo ++ "/issues" := by
    show (("https://api.github.com/repos/" ++ repo) ++ "/") ++ "issues" = _
    rw [String.append_assoc]
    rfl
  simp [GitHubPlugin.create_issue, GitHubPlugin.make_api_request, hurl, hs,
    hnumber]

/-- C6 witness: the concrete scenario of the spec — repo acme/widgets,
title Bug, description Steps..., null assignee, forge replying
status 201 with number 42 — yields 42 and exactly the documented POST. -/
theorem C6_witness :
    GitHubPlugin.create_issue
        ⟨some "acme/widgets", some "tok",
         .response 201 (.ok (.obj [("number", .num 42)]))⟩
        "Bug" "Steps..." none
      = ⟨.ok (.num 42),
         [⟨"POST", "https://api.github.com/repos/" ++ "acme/widgets" ++ "/issues",
           some (.obj [("title", .str "Bug"), ("body", .str "Steps..."),
                       ("assignee", .null)]),
           "token " ++ "tok"⟩], []⟩ :=
  C6_create_issue_success "acme/widgets" "tok" "Bug" "Steps..." 201
    (.obj [("number", .num 42)]) (.num 42) (by decide) rfl

/-- C2 (amended): on an HTTP status above 399 with a JSON body,
create_issue and link_issue raise a ValidationError carrying the message
field of the decoded body when that field is present; when the field is
absent they escape with a KeyError rather than raising a validation error
with an empty message. -/
theorem C2_error_message (env : Env) (tok : String) (status : Nat)
    (json_resp : Json) (title description issue_id comment : String)
    (hauth : env.auth = some tok)
    (hnet : env.net = .response status (.ok json_resp))
    (hstatus : 399 < status) (hcomment : comment ≠ "") :
    (∀ m, json_resp.getItem "message" = .ok m →
        (GitHubPlugin.create_issue env title description none).result
            = .error (.validationError m) ∧
          (GitHubPlugin.link_issue env issue_id (some comment)).result
            = .error (.validationError m)) ∧
      (json_resp.getItem "message" = .error (.keyError "message") →
        (GitHubPlugin.create_issue env title description none).result
            = .error (.keyError "message") ∧
          (GitHubPlugin.link_issue env issue_id (some comment)).result
            = .error (.keyError "message")) := by
  obtain ⟨repo, auth, net⟩ := env
  replace hauth : auth = some tok := hauth
  replace hnet : net = .response status (.ok json_resp) := hnet
  subst hauth
  subst hnet
  constructor
  · intro m hm
    constructor
    · simp [GitHubPlugin.create_issue, GitHubPlugin.make_api_request, hstatus, hm]
    · simp [GitHubPlugin.link_issue, GitHubPlugin.make_api_request, optionTruthy,
        isEmpty_false_of_ne hcomment, hstatus, hm]
  · intro hm
    constructor
    · simp [GitHubPlugin.create_issue, GitHubPlugin.make_api_request, hstatus, hm]
    · simp [GitHubPlugin.link_issue, GitHubPlugin.make_api_request, optionTruthy,
        isEmpty_false_of_ne hcomment, hstatus, hm]

/-- C2 counterexample: a 400 response whose body has no message field makes
create_issue escape with a KeyError — not, as claimed, a validation error
carrying the empty string. -/
theorem C2_counterexample :
    (GitHubPlugin.create_issue
        ⟨some "acme/widgets", some "tok", .response 400 (.ok (.obj []))⟩
        "Bug" "Steps" none).result = .error (.keyError "message") ∧
      (GitHubPlugin.create_issue
          ⟨some "acme/widgets", some "tok", .response 400 (.ok (.obj []))⟩
          "Bug" "Steps" none).result
        ≠ .error (.validationError (.str "")) :=
  ⟨rfl, fun h => PyErr.noConfusion (Except.error.inj h)⟩

/-- C2 witness: the 422 Validation Failed scenario of the spec, for both
create_issue and link_issue. -/
theorem C2_witness :
    (GitHubPlugin.create_issue
        ⟨some "acme/widgets", some "tok",
         .response 422 (.ok (.obj [("message", .str "Validation Failed")]))⟩
        "Bug" "Steps..." none).result
        = .error (.validationError (.str "Validation Failed")) ∧
      (GitHubPlugin.link_issue
          ⟨some "acme/widgets", some "tok",
           .response 422 (.ok (.obj [("message", .str "Validation Failed")]))⟩
          "7" (some "see issue")).result
        = .error (.validationError (.str "Validation Failed")) :=
  (C2_error_message
      ⟨some "acme/widgets", some "tok",
       .response 422 (.ok (.obj [("message", .str "Validation Failed")]))⟩
      "tok" 422 (.obj [("message", .str "Validation Failed")])
      "Bug" "Steps..." "7" "see issue" rfl rfl (by decide) (by decide)).1
    (.str "Validation Failed") rfl

/-- C3 (amended): in view_autocomplete, transport and parse failures yield
the empty 502 response with exactly one error-report call and no escaping
exception; a response with an HTTP status above 399, however, is not
detected as a failure: its items (absent from a GitHub error body) are
returned as an empty issue list with zero error-report calls — unlike
get_allowed_assignees, which reports status errors. -/
theorem C3_search_degrade (env : Env) (tok q : String)
    (hauth : env.auth = some tok) (hq : q ≠ "") :
    (∀ msg, env.net = .reqError msg →
        (GitHubPlugin.view_autocomplete env (some "issue_id") (some q)).result
            = .ok (.jsonResponse (.obj []) 502) ∧
          (GitHubPlugin.view_autocomplete env (some "issue_id") (some q)).errorReports
            = [GitHubPlugin.handle_api_error msg]) ∧
      (∀ status msg, env.net = .response status (.error msg) →
        (GitHubPlugin.view_autocomplete env (some "issue_id") (some q)).result
            = .ok (.jsonResponse (.obj []) 502) ∧
          (GitHubPlugin.view_autocomplete env (some "issue_id") (some q)).errorReports
            = [GitHubPlugin.handle_api_error msg]) ∧
      (∀ status fields, env.net = .response status (.ok (.obj fields)) →
        fields.lookup "items" = none →
        GitHubPlugin.view_autocomplete env (some "issue_id") (some q)
          = ⟨.ok (.response [("issue_id", .arr [])]),
             [⟨"GET",
               "https://api.github.com/search/issues?"
                 ++ urlencode [("q", "repo:" ++ formatOption env.repo ++ " " ++ q)],
               none, "token " ++ tok⟩], []⟩) := by
  obtain ⟨repo, auth, net⟩ := env
  replace hauth : auth = some tok := hauth
  subst hauth
  refine ⟨?_, ?_, ?_⟩
  · intro msg hnet
    replace hnet : net = .reqError msg := hnet
    subst hnet
    constructor
    · simp [GitHubPlugin.view_autocomplete, GitHubPlugin.make_api_request,
        optionTruthy, isEmpty_false_of_ne hq]
    · simp [GitHubPlugin.view_autocomplete, GitHubPlugin.make_api_request,
        optionTruthy, isEmpty_false_of_ne hq]
  · intro status msg hnet
    replace hnet : net = .response status (.error msg) := hnet
    subst hnet
    constructor
    · simp [GitHubPlugin.view_autocomplete, GitHubPlugin.make_api_request,
        optionTruthy, isEmpty_false_of_ne hq]
    · simp [GitHubPlugin.view_autocomplete, GitHubPlugin.make_api_request,
        optionTruthy, isEmpty_false_of_ne hq]
  · intro status fields hnet hitems
    replace hnet : net = .response status (.ok (.obj fields)) := hnet
    subst hnet
    simp [GitHubPlugin.view_autocomplete, GitHubPlugin.make_api_request,
      optionTruthy, isEmpty_false_of_ne hq, Json.getDefault, Json.pyElems,
      hitems, formatOption, GitHubPlugin.autocompleteEntries]

/-- C3 counterexample: a 403 rate-limit response makes view_autocomplete
answer an empty issue list with zero error-report calls — not, as claimed,
exactly one. -/
theorem C3_counterexample :
    (GitHubPlugin.view_autocomplete
        ⟨some "acme/widgets", some "tok",
         .response 403 (.ok (.obj [("message", .str "API rate limit exceeded")]))⟩
        (some "issue_id") (some "crash")).errorReports = [] ∧
      (GitHubPlugin.view_autocomplete
          ⟨some "acme/widgets", some "tok",
           .response 403 (.ok (.obj [("message", .str "API rate limit exceeded")]))⟩
          (some "issue_id") (some "crash")).result
        = .ok (.response [("issue_id", .arr [])]) :=
  ⟨rfl, rfl⟩

/-- C3 witness: the transport-failure case at a concrete environment. -/
theorem C3_witness :
    (GitHubPlugin.view_autocomplete
        ⟨some "acme/widgets", some "tok", .reqError "connection reset"⟩
        (some "issue_id") (some "crash")).result
        = .ok (.jsonResponse (.obj []) 502) ∧
      (GitHubPlugin.view_autocomplete
          ⟨some "acme/widgets", some "tok", .reqError "connection reset"⟩
          (some "issue_id") (some "crash")).errorReports
        = [GitHubPlugin.handle_api_error "connection reset"] :=
  (C3_search_degrade
      ⟨some "acme/widgets", some "tok", .reqError "connection reset"⟩
      "tok" "crash" rfl (by decide)).1 "connection reset" rfl

/-- Helper: the autocomplete entry builder sends a list of number/title
objects to the corresponding text/id entries, in order. -/
theorem autocompleteEntries_map (items : List (Int × String)) :
    GitHubPlugin.autocompleteEntries (items.map fun i =>
        Json.obj [("number", Json.num i.1), ("title", Json.str i.2)])
      = .ok (items.map fun i =>
          Json.obj [("text", Json.str ("(#" ++ toString i.1 ++ ") " ++ i.2)),
                    ("id", Json.num i.1)]) := by
  induction items with
  | nil => rfl
  | cons head tail ih =>
    simp [GitHubPlugin.autocompleteEntries, Json.getItem, Json.pyStr,
      List.lookup, ih]
    rfl

/-- C7: for a configured repository and a non-empty query, the search
operation issues a GET whose query string encodes q=repo:{repo} {query},
and maps each returned item with number N and title T, in order, to an
entry with text (#N) T and id N. -/
theorem C7_search_results (repo tok q : String) (status : Nat)
    (items : List (Int × String)) (hq : q ≠ "") :
    GitHubPlugin.view_autocomplete
        ⟨some repo, some tok,
         .response status (.ok (.obj [("items",
           .arr (items.map fun i =>
             Json.obj [("number", Json.num i.1), ("title", Json.str i.2)]))]))⟩
        (some "issue_id") (some q)
      = ⟨.ok (.response [("issue_id",
           .arr (items.map fun i =>
             Json.obj [("text", Json.str ("(#" ++ toString i.1 ++ ") " ++ i.2)),
                       ("id", Json.num i.1)]))]),
         [⟨"GET",
           "https://api.github.com/search/issues?"
             ++ urlencode [("q", "repo:" ++ repo ++ " " ++ q)],
           none, "token " ++ tok⟩], []⟩ := by
  simp [GitHubPlugin.view_autocomplete, GitHubPlugin.make_api_request,
    optionTruthy, isEmpty_false_of_ne hq, formatOption, Json.getDefault,
    Json.pyElems, List.lookup, autocompleteEntries_map]

/-- C7 witness: the spec scenario — query crash on repo acme/widgets, one
item number 7 titled Crash on load — yields the single (#7) Crash on load
entry with id 7. -/
theorem C7_witness :
    GitHubPlugin.view_autocomplete
        ⟨some "acme/widgets", some "tok",
         .response 200 (.ok (.obj [("items",
           .arr [Json.obj [("number", Json.num 7),
                           ("title", Json.str "Crash on load")]])]))⟩
        (some "issue_id") (some "crash")
      = ⟨.ok (.response [("issue_id",
           .arr [Json.obj [("text", Json.str "(#7) Crash on load"),
                           ("id", Json.num 7)]])]),
         [⟨"GET",
           "https://api.github.com/search/issues?"
             ++ urlencode [("q", "repo:" ++ "acme/widgets" ++ " " ++ "crash")],
           none, "token " ++ "tok"⟩], []⟩ :=
  C7_search_results "acme/widgets" "tok" "crash" 200 [(7, "Crash on load")]
    (by decide)
